import Mathlib

/-!
Verification of the pydps DPS power-supply client (pydps.py).

The development shallowly embeds the data model and the operations of the
`PyDPS` class: the parameter and setting metadata tables, the name/writable/
value checks, the generic getter and setter, the batch query decoders, and
the construction-time capability discovery.  The Modbus transport
(`minimalmodbus.Instrument.read_register` and `write_register`) is an
external collaborator; it is modelled from its documented fixed-point
semantics, which the spec calls the RegisterTransport capability.
Register files are total functions from addresses to raw 16-bit values,
machine floats are modelled as exact rationals, and every fallible
operation returns an `Except` value in place of a raised `ValueError`.
-/

/-- Register addresses of all DPS variables and parameters (enum `ParamName`,
pydps.py lines 7 through 23). -/
inductive ParamName
  | V_SET | I_SET | V_OUT | I_OUT | P_OUT | V_IN | LOCK
  | PROTECT | CV_CC | ON_OFF | B_LED | MODEL | VERSION
deriving DecidableEq

/-- Numeric value of each `ParamName` member. -/
def ParamName.value : ParamName → ℕ
  | .V_SET => 0x0000
  | .I_SET => 0x0001
  | .V_OUT => 0x0002
  | .I_OUT => 0x0003
  | .P_OUT => 0x0004
  | .V_IN => 0x0005
  | .LOCK => 0x0006
  | .PROTECT => 0x0007
  | .CV_CC => 0x0008
  | .ON_OFF => 0x0009
  | .B_LED => 0x000A
  | .MODEL => 0x000B
  | .VERSION => 0x000C

/-- Relative addresses of all DPS data group settings (enum `SettingName`,
pydps.py lines 26 through 37). -/
inductive SettingName
  | V_SET | I_SET | OVP | OCP | OPP | B_LED | M_PRE | INI
deriving DecidableEq

/-- Numeric value of each `SettingName` member. -/
def SettingName.value : SettingName → ℕ
  | .V_SET => 0x0000
  | .I_SET => 0x0001
  | .OVP => 0x0002
  | .OCP => 0x0003
  | .OPP => 0x0004
  | .B_LED => 0x0005
  | .M_PRE => 0x0006
  | .INI => 0x0007

/-- Data group base addresses (enum `DataGroup`, pydps.py lines 40 through 53). -/
inductive DataGroup
  | M0 | M1 | M2 | M3 | M4 | M5 | M6 | M7 | M8 | M9
deriving DecidableEq

/-- Numeric value of each `DataGroup` member. -/
def DataGroup.value : DataGroup → ℕ
  | .M0 => 0x0000
  | .M1 => 0x0010
  | .M2 => 0x0020
  | .M3 => 0x0030
  | .M4 => 0x0040
  | .M5 => 0x0050
  | .M6 => 0x0060
  | .M7 => 0x0070
  | .M8 => 0x0080
  | .M9 => 0x0090

/-- List of every data group base address. -/
def dataGroupList : List DataGroup :=
  [.M0, .M1, .M2, .M3, .M4, .M5, .M6, .M7, .M8, .M9]

/-- List of every setting offset. -/
def settingNameList : List SettingName :=
  [.V_SET, .I_SET, .OVP, .OCP, .OPP, .B_LED, .M_PRE, .INI]

/-- The settings address space named by the spec: 8 registers per memory slot
block, blocks based at the `DataGroup` addresses 0x00 through 0x90. -/
def settingAddressSpace (a : ℕ) : Bool :=
  dataGroupList.any (fun g => settingNameList.any (fun t => a = g.value + t.value))

/-- Data class `ParamInfo` (pydps.py lines 56 through 83): all information
about one parameter.  Field order and names follow the source constructor. -/
structure ParamInfo where
  read : Bool
  write : Bool
  unit : String
  description : String
  value_range : Option (ℚ × ℚ)
  integer : Bool
deriving DecidableEq

/-- The `ParameterInfo` dictionary as populated by `PyDPS.__init__`
(pydps.py lines 119 through 133), before capability discovery. -/
def initialParameterInfo : ℕ → Option ParamInfo
  | 0 => some ⟨true, true, "V", "Set voltage", none, false⟩
  | 1 => some ⟨true, true, "A", "Set current", none, false⟩
  | 2 => some ⟨true, false, "V", "Measured output voltage", none, false⟩
  | 3 => some ⟨true, false, "A", "Measured output current", none, false⟩
  | 4 => some ⟨true, false, "W", "Measured output power", none, false⟩
  | 5 => some ⟨true, false, "V", "Measured input voltage", none, false⟩
  | 6 => some ⟨true, true, "-", "Key lock", some (0, 1), true⟩
  | 7 => some ⟨true, false, "-", "Protection status", some (0, 1), true⟩
  | 8 => some ⟨true, false, "-", "Voltage control or current limit mode", some (0, 1), true⟩
  | 9 => some ⟨true, true, "-", "Output active state", some (0, 1), true⟩
  | 10 => some ⟨true, true, "-", "Backlight brightness level", some (0, 5), true⟩
  | 11 => some ⟨true, false, "-", "Product model", none, false⟩
  | 12 => some ⟨true, false, "-", "Firmware version", none, false⟩
  | _ => none

/-- The `SettingInfo` dictionary as populated by `PyDPS.__init__`
(pydps.py lines 136 through 145), before capability discovery. -/
def initialSettingInfo : ℕ → Option ParamInfo
  | 0 => some ⟨true, true, "V", "Set voltage", none, false⟩
  | 1 => some ⟨true, true, "A", "Set current", none, false⟩
  | 2 => some ⟨true, true, "V", "Over-voltage protection value", none, false⟩
  | 3 => some ⟨true, true, "A", "Over-current protection value", none, false⟩
  | 4 => some ⟨true, true, "W", "Over-power protection value", none, false⟩
  | 5 => some ⟨true, true, "-", "Backlight brightness level", some (0, 5), true⟩
  | 6 => some ⟨true, true, "-", "Memory preset number", some (0, 9), true⟩
  | 7 => some ⟨true, true, "-", "Power output switch", some (0, 1), true⟩
  | _ => none

/-- Replace the `value_range` field of a `ParamInfo`, as the assignments
`self.ParameterInfo[...].value_range = [...]` do in the source. -/
def setInfoRange (i : ParamInfo) (r : ℚ × ℚ) : ParamInfo :=
  ⟨i.read, i.write, i.unit, i.description, some r, i.integer⟩

/-- Update one entry of a metadata table with a new value range. -/
def setTableRange (t : ℕ → Option ParamInfo) (a : ℕ) (r : ℚ × ℚ) : ℕ → Option ParamInfo :=
  fun x => if x = a then (t x).map (fun i => setInfoRange i r) else t x

/-- Modelled from the spec: the RegisterTransport collaborator.  The source
uses `minimalmodbus.Instrument.read_register(address, d)`, whose documented
behaviour is to return the raw 16-bit register content divided by `10 ^ d`
(the decimal-precision argument of section 4.3 of the spec). -/
def readRegister (regs : ℕ → ℕ) (address d : ℕ) : ℚ :=
  (regs address : ℚ) / 10 ^ d

/-- Modelled from the spec: the RegisterTransport collaborator.  The source
uses `minimalmodbus.Instrument.write_register(address, value, d)`, whose
documented behaviour is to store `value * 10 ^ d`, rounded to the nearest
integer, as the raw register content. -/
def writeRegister (regs : ℕ → ℕ) (address : ℕ) (v : ℚ) (d : ℕ) : ℕ → ℕ :=
  fun a => if a = address then (round (v * 10 ^ d)).toNat else regs a

/-- Modelled from the spec: the raw multi-register read
`minimalmodbus.Instrument.read_registers(address, count)`, which returns the
unscaled integer content of consecutive registers; `responseAt regs a i`
is entry `response[i]` of a read starting at address `a`. -/
def responseAt (regs : ℕ → ℕ) (a i : ℕ) : ℚ :=
  (regs (a + i) : ℚ)

/-- A Python value as passed to `set_parameter`: an int (numpy integer types
included), a bool, or a float.  Exact rationals stand in for floats. -/
inductive PyVal
  | pyInt (n : ℤ)
  | pyBool (b : Bool)
  | pyFloat (q : ℚ)
deriving DecidableEq

/-- Numeric content of a value, as Python comparisons see it
(True compares as 1, False as 0). -/
def PyVal.toRat : PyVal → ℚ
  | .pyInt n => n
  | .pyBool b => if b then 1 else 0
  | .pyFloat q => q

/-- Whether `isinstance(value, (int, bool, np.int8, ...))` holds
(pydps.py lines 519 and 520): true exactly for the integer and boolean
types, false for floats regardless of their numeric content. -/
def PyVal.isIntegerType : PyVal → Bool
  | .pyInt _ => true
  | .pyBool _ => true
  | .pyFloat _ => false

/-- The distinct `ValueError` messages raised by the checks of `PyDPS`,
using the error names of the spec taxonomy.  The range check has two
failure messages, both named `OutOfRangeError` by section 4.3 of the spec. -/
inductive RangeFailure
  | unsetRange
  | valueOutside
deriving DecidableEq

/-- Errors raised by the `PyDPS` operations (all `ValueError` in Python,
told apart by their message; named as in the spec taxonomy). -/
inductive DpsError
  | unknownParameter
  | notWritable
  | typeMismatch
  | outOfRange (r : RangeFailure)
deriving DecidableEq

/-- The client state: both metadata dictionaries and the register file of
the connected device. -/
structure DPSState where
  params : ℕ → Option ParamInfo
  settings : ℕ → Option ParamInfo
  regs : ℕ → ℕ

/-- A name argument accepted by the generic operations: an enum member of
either kind, or a raw register address. -/
inductive RegKey
  | byParam (p : ParamName)
  | bySetting (t : SettingName)
  | byAddr (a : ℕ)
deriving DecidableEq

/-- The address extraction step of `_check_name` (pydps.py lines 484
through 487): an enum member contributes its value, a raw address itself. -/
def RegKey.addr : RegKey → ℕ
  | .byParam p => p.value
  | .bySetting t => t.value
  | .byAddr a => a

/-- `PyDPS._check_name` (pydps.py lines 477 through 490): resolve the name,
then fail unless the address is a key of `ParameterInfo`. -/
def checkName (s : DPSState) (k : RegKey) : Except DpsError ℕ :=
  if (s.params k.addr).isSome then .ok k.addr else .error .unknownParameter

/-- The dictionary lookup shared by `_check_writable` and `_check_value`:
`ParameterInfo` is consulted first, `SettingInfo` only on a miss.  A miss in
both would be a Python `KeyError`; that case is unreachable after
`_check_name` and is modelled as `none`. -/
def lookupInfo (s : DPSState) (address : ℕ) : Option ParamInfo :=
  match s.params address with
  | some i => some i
  | none => s.settings address

/-- `PyDPS._check_writable` (pydps.py lines 492 through 504).  The
unreachable double-miss of the lookup is modelled as the lookup failure
error. -/
def checkWritable (s : DPSState) (address : ℕ) : Except DpsError Unit :=
  match lookupInfo s address with
  | some i => if i.write then .ok () else .error .notWritable
  | none => .error .unknownParameter

/-- `PyDPS._check_value` (pydps.py lines 506 through 529): the type check,
then the range check, returning the integer flag on success.  The
unreachable double-miss of the lookup is modelled as the lookup failure
error. -/
def checkValue (s : DPSState) (address : ℕ) (v : PyVal) : Except DpsError Bool :=
  match lookupInfo s address with
  | none => .error .unknownParameter
  | some info =>
    if info.integer && !v.isIntegerType then .error .typeMismatch
    else
      match info.value_range with
      | none => .error (.outOfRange .unsetRange)
      | some r =>
        if v.toRat < r.1 ∨ r.2 < v.toRat then .error (.outOfRange .valueOutside)
        else .ok info.integer

/-- `PyDPS.get_parameter` (pydps.py lines 172 through 181): resolve the
name, then read the register with 2 decimals. -/
def getParameter (s : DPSState) (k : RegKey) : Except DpsError ℚ :=
  match checkName s k with
  | .error e => .error e
  | .ok address => .ok (readRegister s.regs address 2)

/-- `PyDPS.set_parameter` (pydps.py lines 183 through 201): resolve, check
writability, check the value, then write with 0 decimals for integer
parameters and 2 decimals otherwise. -/
def setParameter (s : DPSState) (k : RegKey) (v : PyVal) : Except DpsError DPSState :=
  match checkName s k with
  | .error e => .error e
  | .ok address =>
    match checkWritable s address with
    | .error e => .error e
    | .ok _ =>
      match checkValue s address v with
      | .error e => .error e
      | .ok boolean =>
        if boolean then
          .ok ⟨s.params, s.settings, writeRegister s.regs address v.toRat 0⟩
        else
          .ok ⟨s.params, s.settings, writeRegister s.regs address v.toRat 2⟩

/-- `PyDPS.get_parameter_info` (pydps.py lines 203 through 212): resolve the
name, then index `ParameterInfo`.  The index cannot miss after
`_check_name`; a miss is modelled as the lookup failure error. -/
def getParameterInfo (s : DPSState) (k : RegKey) : Except DpsError ParamInfo :=
  match checkName s k with
  | .error e => .error e
  | .ok address =>
    match s.params address with
    | some i => .ok i
    | none => .error .unknownParameter

/-- The rounding of the built-in Python `round` on exact values: round half
to even. -/
def roundHalfEven (q : ℚ) : ℤ :=
  if Int.fract q = 1 / 2 then (if 2 ∣ ⌊q⌋ then ⌊q⌋ else ⌊q⌋ + 1) else round q

/-- Python `round(x, 2)`: round to 2 decimal places. -/
def pyRound2 (q : ℚ) : ℚ :=
  (roundHalfEven (q * 100) : ℚ) / 100

/-- `PyDPS.get_all_parameters` (pydps.py lines 217 through 239): one read of
13 registers from 0x00, decoded per slot.  The returned dictionary is
modelled as a map from `ParamName` to an optional value; every key of this
query is present. -/
def getAllParameters (s : DPSState) : ParamName → Option ℚ
  | .V_SET => some (responseAt s.regs 0 0 * 0.01)
  | .I_SET => some (responseAt s.regs 0 1 * 0.01)
  | .V_OUT => some (pyRound2 (responseAt s.regs 0 2 * 0.01))
  | .I_OUT => some (pyRound2 (responseAt s.regs 0 3 * 0.01))
  | .P_OUT => some (pyRound2 (responseAt s.regs 0 4 * 0.01))
  | .V_IN => some (responseAt s.regs 0 5 * 0.01)
  | .LOCK => some (responseAt s.regs 0 6)
  | .PROTECT => some (responseAt s.regs 0 7)
  | .CV_CC => some (responseAt s.regs 0 8)
  | .ON_OFF => some (responseAt s.regs 0 9)
  | .B_LED => some (responseAt s.regs 0 10)
  | .MODEL => some (responseAt s.regs 0 11)
  | .VERSION => some (responseAt s.regs 0 12)

/-- `PyDPS.get_all_variables` (pydps.py lines 241 through 261): one read of
11 registers from 0x00; `MODEL` and `VERSION` are not in the returned
dictionary. -/
def getAllVariables (s : DPSState) : ParamName → Option ℚ
  | .V_SET => some (responseAt s.regs 0 0 * 0.01)
  | .I_SET => some (responseAt s.regs 0 1 * 0.01)
  | .V_OUT => some (pyRound2 (responseAt s.regs 0 2 * 0.01))
  | .I_OUT => some (pyRound2 (responseAt s.regs 0 3 * 0.01))
  | .P_OUT => some (pyRound2 (responseAt s.regs 0 4 * 0.01))
  | .V_IN => some (responseAt s.regs 0 5 * 0.01)
  | .LOCK => some (responseAt s.regs 0 6)
  | .PROTECT => some (responseAt s.regs 0 7)
  | .CV_CC => some (responseAt s.regs 0 8)
  | .ON_OFF => some (responseAt s.regs 0 9)
  | .B_LED => some (responseAt s.regs 0 10)
  | .MODEL => none
  | .VERSION => none

/-- `PyDPS.get_all_measurements` (pydps.py lines 263 through 276): one read
of 4 registers from `V_OUT`; only the four measured quantities are keys. -/
def getAllMeasurements (s : DPSState) : ParamName → Option ℚ
  | .V_OUT => some (pyRound2 (responseAt s.regs ParamName.V_OUT.value 0 * 0.01))
  | .I_OUT => some (pyRound2 (responseAt s.regs ParamName.V_OUT.value 1 * 0.01))
  | .P_OUT => some (pyRound2 (responseAt s.regs ParamName.V_OUT.value 2 * 0.01))
  | .V_IN => some (pyRound2 (responseAt s.regs ParamName.V_OUT.value 3 * 0.01))
  | _ => none

/-- `PyDPS.get_set_values` (pydps.py lines 278 through 289): one read of 2
registers from `V_SET`; both entries are rounded in the source. -/
def getSetValues (s : DPSState) : ParamName → Option ℚ
  | .V_SET => some (pyRound2 (responseAt s.regs ParamName.V_SET.value 0 * 0.01))
  | .I_SET => some (pyRound2 (responseAt s.regs ParamName.V_SET.value 1 * 0.01))
  | _ => none

/-- The model-number parse of `PyDPS.__init__` (pydps.py lines 150 through
152): the raw register is read with 2 decimals, giving the float
`raw / 100`, whose shortest decimal representation is split at the period.
A fractional part of zero prints as a single 0 digit and a fractional part
that is a multiple of ten drops its trailing zero, exactly as `str` of the
float does. -/
def parseModel (raw : ℕ) : ℕ × ℕ :=
  let frac := raw % 100
  if frac = 0 then (raw / 100, 0)
  else if frac % 10 = 0 then (raw / 100, frac / 10)
  else (raw / 100, frac)

/-- `max_voltage = self.get_input_voltage() / 1.1` (pydps.py line 155),
where the input voltage register is read with 2 decimals. -/
def maxVoltageOf (rawVin : ℕ) : ℚ :=
  ((rawVin : ℚ) / 100) / 1.1

/-- `max_current = current` (pydps.py line 154), the current rating digits
of the model number. -/
def maxCurrentOf (rawModel : ℕ) : ℚ :=
  ((parseModel rawModel).2 : ℚ)

/-- The integer voltage rating parsed from the model number. -/
def ratedVoltageOf (rawModel : ℕ) : ℕ :=
  (parseModel rawModel).1

/-- The integer current rating parsed from the model number. -/
def ratedCurrentOf (rawModel : ℕ) : ℕ :=
  (parseModel rawModel).2

/-- The `ParameterInfo` table after the range assignments of
`PyDPS.__init__` (pydps.py lines 157 through 161). -/
def pydpsParams (rawModel rawVin : ℕ) : ℕ → Option ParamInfo :=
  setTableRange (setTableRange (setTableRange (setTableRange (setTableRange
    initialParameterInfo
    0 (0, maxVoltageOf rawVin))
    1 (0, maxCurrentOf rawModel))
    2 (0, maxVoltageOf rawVin))
    3 (0, maxCurrentOf rawModel))
    4 (0, maxCurrentOf rawModel * maxVoltageOf rawVin)

/-- The `SettingInfo` table after the range assignments of
`PyDPS.__init__` (pydps.py lines 163 through 167). -/
def pydpsSettings (rawModel rawVin : ℕ) : ℕ → Option ParamInfo :=
  setTableRange (setTableRange (setTableRange (setTableRange (setTableRange
    initialSettingInfo
    0 (0, maxVoltageOf rawVin))
    1 (0, maxCurrentOf rawModel))
    2 (0, (ratedVoltageOf rawModel : ℚ) * 1.02))
    3 (0, (ratedCurrentOf rawModel : ℚ) * 1.01))
    4 (0, (ratedCurrentOf rawModel : ℚ) * (ratedVoltageOf rawModel : ℚ) * 1.01)

/-- Both metadata tables produced by capability discovery from the raw
model-number and input-voltage register contents. -/
def pydpsSetup (rawModel rawVin : ℕ) : (ℕ → Option ParamInfo) × (ℕ → Option ParamInfo) :=
  (pydpsParams rawModel rawVin, pydpsSettings rawModel rawVin)

/-- Assemble a client state from discovered tables and a register file. -/
def mkState (tables : (ℕ → Option ParamInfo) × (ℕ → Option ParamInfo)) (regs : ℕ → ℕ) :
    DPSState :=
  ⟨tables.1, tables.2, regs⟩

/-- Modelled from the spec: the transport failures of section 7
(timeout, CRC failure, framing error), raised by the collaborator. -/
inductive TransportError
  | timeout
  | crcFailure
  | framingError
deriving DecidableEq

/-- Modelled from the spec: the errors a construction attempt can surface.
Section 7 of the spec names a distinct `DeviceInitializationError`; the
source has no such wrapper, so the constructor exists only to state the
claim about it. -/
inductive InitError
  | transportError (e : TransportError)
  | deviceInitializationError
deriving DecidableEq

/-- Map the error of an `Except` value, leaving successes unchanged. -/
def mapErr {e1 e2 a : Type} (f : e1 → e2) : Except e1 a → Except e2 a
  | .ok x => .ok x
  | .error x => .error (f x)

/-- The fallible discovery phase of `PyDPS.__init__` (pydps.py lines 150
through 167): read the model number register, then the input voltage
register, each read able to fail in the transport; on success produce the
populated metadata tables.  A transport failure propagates unchanged. -/
def pydpsInitT (tr : ℕ → Except TransportError ℕ) :
    Except InitError ((ℕ → Option ParamInfo) × (ℕ → Option ParamInfo)) :=
  match mapErr InitError.transportError (tr ParamName.MODEL.value) with
  | .error e => .error e
  | .ok rawModel =>
    match mapErr InitError.transportError (tr ParamName.V_IN.value) with
    | .error e => .error e
    | .ok rawVin => .ok (pydpsSetup rawModel rawVin)

/-- A concrete register file: the device of the test scenario, model 50.15
with input voltage 48. -/
def demoRegs : ℕ → ℕ :=
  fun a => if a = 11 then 5015 else if a = 5 then 4800 else 0

/-- A concrete constructed client for the scenario device. -/
def demoState : DPSState :=
  mkState (pydpsSetup 5015 4800) demoRegs

/-- A transport in which every transaction times out. -/
def failingTransport : ℕ → Except TransportError ℕ :=
  fun _ => .error .timeout

/-! ## Helper lemmas -/

theorem roundHalfEven_intCast (n : ℤ) : roundHalfEven (n : ℚ) = n := by
  unfold roundHalfEven
  rw [Int.fract_intCast]
  norm_num

theorem pyRound2_decoded (n : ℕ) : pyRound2 ((n : ℚ) * 0.01) = (n : ℚ) * 0.01 := by
  unfold pyRound2
  have h : ((n : ℚ) * 0.01) * 100 = ((n : ℤ) : ℚ) := by push_cast; ring_nf
  rw [h, roundHalfEven_intCast]
  norm_num
  ring_nf

theorem setTableRange_isSome (t : ℕ → Option ParamInfo) (a : ℕ) (r : ℚ × ℚ) (x : ℕ) :
    ((setTableRange t a r) x).isSome = (t x).isSome := by
  unfold setTableRange
  split
  · cases t x <;> rfl
  · rfl

theorem pydpsParams_isSome (rm rv x : ℕ) :
    ((pydpsParams rm rv) x).isSome = (initialParameterInfo x).isSome := by
  unfold pydpsParams
  rw [setTableRange_isSome, setTableRange_isSome, setTableRange_isSome,
    setTableRange_isSome, setTableRange_isSome]

theorem initialParameterInfo_high (m : ℕ) : initialParameterInfo (m + 13) = none := rfl

theorem pydpsParams_high (rm rv m : ℕ) : (pydpsParams rm rv) (m + 13) = none := by
  unfold pydpsParams setTableRange
  rw [if_neg (by omega : ¬(m + 13 = 4)), if_neg (by omega : ¬(m + 13 = 3)),
    if_neg (by omega : ¬(m + 13 = 2)), if_neg (by omega : ¬(m + 13 = 1)),
    if_neg (by omega : ¬(m + 13 = 0))]
  exact initialParameterInfo_high m

theorem checkName_ok_isSome (s : DPSState) (k : RegKey) (address : ℕ)
    (h : checkName s k = .ok address) : (s.params address).isSome = true := by
  unfold checkName at h
  split at h
  · cases h
    assumption
  · cases h

theorem setParameter_eq_of_writable (s : DPSState) (k : RegKey) (v : PyVal) (address : ℕ)
    (info : ParamInfo) (h1 : checkName s k = .ok address) (h2 : s.params address = some info)
    (h3 : info.write = true) :
    setParameter s k v = (checkValue s address v).map
      (fun b => DPSState.mk s.params s.settings
        (writeRegister s.regs address v.toRat (if b then 0 else 2))) := by
  unfold setParameter checkWritable lookupInfo
  simp only [h1, h2, h3, if_true]
  cases checkValue s address v with
  | error e => rfl
  | ok b => cases b <;> rfl

theorem checkValue_of_params (s : DPSState) (address : ℕ) (info : ParamInfo) (v : PyVal)
    (h2 : s.params address = some info) :
    checkValue s address v =
      (if info.integer && !v.isIntegerType then .error .typeMismatch
       else
         match info.value_range with
         | none => .error (.outOfRange .unsetRange)
         | some r =>
           if v.toRat < r.1 ∨ r.2 < v.toRat then .error (.outOfRange .valueOutside)
           else .ok info.integer) := by
  unfold checkValue lookupInfo
  rw [h2]

theorem setParameter_preserves_tables (s : DPSState) (k : RegKey) (v : PyVal) (s1 : DPSState)
    (h : setParameter s k v = .ok s1) : s1.params = s.params ∧ s1.settings = s.settings := by
  unfold setParameter at h
  rcases hn : checkName s k with e | address
  · simp only [hn] at h
    exact Except.noConfusion h
  · simp only [hn] at h
    rcases hw : checkWritable s address with e | u
    · simp only [hw] at h
      exact Except.noConfusion h
    · simp only [hw] at h
      rcases hv : checkValue s address v with e | b
      · simp only [hv] at h
        exact Except.noConfusion h
      · simp only [hv] at h
        cases b
        · simp at h
          subst h
          exact ⟨rfl, rfl⟩
        · simp at h
          subst h
          exact ⟨rfl, rfl⟩

theorem mkState_params (t : (ℕ → Option ParamInfo) × (ℕ → Option ParamInfo)) (regs : ℕ → ℕ) :
    (mkState t regs).params = t.1 := rfl

theorem pydpsSetup_fst (rm rv : ℕ) : (pydpsSetup rm rv).1 = pydpsParams rm rv := rfl

theorem initialSettingInfo_high (m : ℕ) : initialSettingInfo (m + 8) = none := rfl

theorem pydpsSettings_high (rm rv m : ℕ) : (pydpsSettings rm rv) (m + 8) = none := by
  unfold pydpsSettings setTableRange
  rw [if_neg (by omega : ¬(m + 8 = 4)), if_neg (by omega : ¬(m + 8 = 3)),
    if_neg (by omega : ¬(m + 8 = 2)), if_neg (by omega : ¬(m + 8 = 1)),
    if_neg (by omega : ¬(m + 8 = 0))]
  exact initialSettingInfo_high m

theorem pydpsParams_writable_range (rm rv a : ℕ) (info : ParamInfo)
    (h : (pydpsParams rm rv) a = some info) (hw : info.write = true) :
    info.value_range.isSome = true := by
  rcases Nat.lt_or_ge a 13 with ha | ha
  · interval_cases a <;>
      (simp [pydpsParams, setTableRange, setInfoRange, initialParameterInfo] at h;
       subst h; simp_all)
  · obtain ⟨m, rfl⟩ : ∃ m, a = m + 13 := ⟨a - 13, by omega⟩
    rw [pydpsParams_high] at h
    cases h

theorem pydpsSettings_writable_range (rm rv a : ℕ) (info : ParamInfo)
    (h : (pydpsSettings rm rv) a = some info) (hw : info.write = true) :
    info.value_range.isSome = true := by
  rcases Nat.lt_or_ge a 8 with ha | ha
  · interval_cases a <;>
      (simp [pydpsSettings, setTableRange, setInfoRange, initialSettingInfo] at h;
       subst h; simp_all)
  · obtain ⟨m, rfl⟩ : ∃ m, a = m + 8 := ⟨a - 8, by omega⟩
    rw [pydpsSettings_high] at h
    cases h

/-! ## Claim theorems -/

/-- Claim C1 (code bug witness): for the integer-typed writable key-lock
parameter, `set_parameter` followed by `get_parameter` on the same register
contents does not return the written value.  Writing value 1 stores the raw
register value 1 (0 decimals), but `get_parameter` always reads with 2
decimals, so the round trip returns 0.01, not 1, contradicting the
round-trip property asserted by the spec and by the repository test
`test_generic_getters_setters`. -/
theorem c1_integer_roundtrip_evaluation :
    ((setParameter demoState (.byParam .LOCK) (.pyInt 1)).bind
        (fun s1 => getParameter s1 (.byParam .LOCK)) = .ok (1 / 100)) ∧
    (1 / 100 : ℚ) ≠ 1 := by
  constructor
  · have h1 : setParameter demoState (.byParam .LOCK) (.pyInt 1) =
        .ok ⟨demoState.params, demoState.settings,
              writeRegister demoState.regs 6 (PyVal.toRat (.pyInt 1)) 0⟩ := rfl
    rw [h1]
    have h2 : (Except.ok (⟨demoState.params, demoState.settings,
        writeRegister demoState.regs 6 (PyVal.toRat (.pyInt 1)) 0⟩ : DPSState)).bind
        (fun s1 => getParameter s1 (.byParam .LOCK)) =
        .ok (readRegister (writeRegister demoState.regs 6 (PyVal.toRat (.pyInt 1)) 0) 6 2) :=
      rfl
    rw [h2]
    simp only [Except.ok.injEq, readRegister, writeRegister, PyVal.toRat]
    norm_num
  · norm_num

/-- Claim C2 (counterexample): address 0x10 belongs to the settings address
space named by the claim (memory slot block 1, offset 0), yet name
resolution rejects it with the unknown-parameter error, refuting the claim
that every address of the settings address space is accepted. -/
theorem c2_counterexample :
    settingAddressSpace 0x10 = true ∧
    checkName demoState (.byAddr 0x10) = .error .unknownParameter :=
  ⟨rfl, rfl⟩

/-- Claim C2 (amended): on a constructed client, name resolution accepts a
raw address exactly when it lies in the parameter address space 0x00
through 0x0C, and rejects every other address (in particular 0xFF and all
settings block addresses 0x10 and above) with the unknown-parameter
error. -/
theorem c2_amended_resolution (rm rv : ℕ) (regs : ℕ → ℕ) (n : ℕ) :
    (n ≤ 12 → checkName (mkState (pydpsSetup rm rv) regs) (.byAddr n) = .ok n) ∧
    (12 < n → checkName (mkState (pydpsSetup rm rv) regs) (.byAddr n) =
      .error .unknownParameter) := by
  constructor
  · intro hn
    interval_cases n <;> rfl
  · intro hn
    obtain ⟨m, rfl⟩ : ∃ m, n = m + 13 := ⟨n - 13, by omega⟩
    simp [checkName, RegKey.addr, mkState_params, pydpsSetup_fst, pydpsParams_high]

/-- Claim C2 (witness): the amended theorem applied to the unknown address
0xFF on the scenario client. -/
theorem c2_amended_witness :
    checkName demoState (.byAddr 0xFF) = .error .unknownParameter :=
  (c2_amended_resolution 5015 4800 demoRegs 0xFF).2 (by norm_num)

/-- Claim C3: in every batch decoder the measured quantities (output
voltage, output current, output power) equal the raw register value times
0.01 rounded to 2 decimal places, and the set-points (set voltage, set
current) equal the raw register value times 0.01 unrounded, uniformly
across `get_all_parameters`, `get_all_variables`, `get_all_measurements`
and `get_set_values` (in `get_set_values` the source applies the rounding,
which is the identity on exactly decoded values). -/
theorem c3_scaled_decoding (s : DPSState) :
    getAllParameters s .V_SET = some ((s.regs 0 : ℚ) * 0.01) ∧
    getAllParameters s .I_SET = some ((s.regs 1 : ℚ) * 0.01) ∧
    getAllParameters s .V_OUT = some (pyRound2 ((s.regs 2 : ℚ) * 0.01)) ∧
    getAllParameters s .I_OUT = some (pyRound2 ((s.regs 3 : ℚ) * 0.01)) ∧
    getAllParameters s .P_OUT = some (pyRound2 ((s.regs 4 : ℚ) * 0.01)) ∧
    getAllVariables s .V_SET = some ((s.regs 0 : ℚ) * 0.01) ∧
    getAllVariables s .I_SET = some ((s.regs 1 : ℚ) * 0.01) ∧
    getAllVariables s .V_OUT = some (pyRound2 ((s.regs 2 : ℚ) * 0.01)) ∧
    getAllVariables s .I_OUT = some (pyRound2 ((s.regs 3 : ℚ) * 0.01)) ∧
    getAllVariables s .P_OUT = some (pyRound2 ((s.regs 4 : ℚ) * 0.01)) ∧
    getAllMeasurements s .V_OUT = some (pyRound2 ((s.regs 2 : ℚ) * 0.01)) ∧
    getAllMeasurements s .I_OUT = some (pyRound2 ((s.regs 3 : ℚ) * 0.01)) ∧
    getAllMeasurements s .P_OUT = some (pyRound2 ((s.regs 4 : ℚ) * 0.01)) ∧
    getSetValues s .V_SET = some ((s.regs 0 : ℚ) * 0.01) ∧
    getSetValues s .I_SET = some ((s.regs 1 : ℚ) * 0.01) := by
  refine ⟨?_, ?_, ?_, ?_, ?_, ?_, ?_, ?_, ?_, ?_, ?_, ?_, ?_, ?_, ?_⟩ <;>
    simp [getAllParameters, getAllVariables, getAllMeasurements, getSetValues,
      responseAt, ParamName.value, pyRound2_decoded]

/-- Claim C4: the validation checks of `set_parameter` run in the fixed
order writability, type, range, short-circuiting on the first failure: a
parameter whose info is not writable fails with the not-writable error for
every value whatsoever, and a writable integer parameter given a
non-integer-typed value fails with the type-mismatch error before the range
check is consulted.  On failure no state is produced, so no transport write
occurs. -/
theorem c4_check_order (s : DPSState) (k : RegKey) (v : PyVal) (address : ℕ)
    (info : ParamInfo) (h1 : checkName s k = .ok address)
    (h2 : s.params address = some info) :
    (info.write = false → setParameter s k v = .error .notWritable) ∧
    (info.write = true → info.integer = true → v.isIntegerType = false →
      setParameter s k v = .error .typeMismatch) := by
  constructor
  · intro hw
    simp [setParameter, checkWritable, lookupInfo, h1, h2, hw]
  · intro hw hi hv
    rw [setParameter_eq_of_writable s k v address info h1 h2 hw,
      checkValue_of_params s address info v h2]
    simp [hi, hv, Except.map]

/-- Claim C4 (witness): the read-only output-voltage parameter rejects an
arbitrary float with the not-writable error, and the writable integer
key-lock parameter rejects the out-of-range float 1.5 with the
type-mismatch error, showing the type check precedes the range check. -/
theorem c4_witness :
    setParameter demoState (.byParam .V_OUT) (.pyFloat 99) = .error .notWritable ∧
    setParameter demoState (.byParam .LOCK) (.pyFloat (3 / 2)) = .error .typeMismatch :=
  ⟨(c4_check_order demoState (.byParam .V_OUT) (.pyFloat 99) 2 _ rfl rfl).1 rfl,
   (c4_check_order demoState (.byParam .LOCK) (.pyFloat (3 / 2)) 6 _ rfl rfl).2 rfl rfl rfl⟩

/-- Claim C5 (counterexample): the float 1.0 is representable as the
integer 1, yet writing it to the integer-typed key-lock parameter fails
with the type-mismatch error, refuting the claim that integer-representable
values pass the type check. -/
theorem c5_counterexample :
    setParameter demoState (.byParam .LOCK) (.pyFloat 1) = .error .typeMismatch ∧
    (PyVal.pyFloat 1).toRat = ((1 : ℤ) : ℚ) :=
  ⟨rfl, by norm_num [PyVal.toRat]⟩

/-- Claim C5 (amended): for a writable integer-typed parameter, the type
check of `set_parameter` fails with the type-mismatch error exactly when
the supplied value is not an instance of an integer or boolean type;
booleans pass, and floats are rejected regardless of their numeric
content. -/
theorem c5_amended_type_check (s : DPSState) (k : RegKey) (v : PyVal) (address : ℕ)
    (info : ParamInfo) (h1 : checkName s k = .ok address)
    (h2 : s.params address = some info) (h3 : info.write = true)
    (h4 : info.integer = true) :
    (setParameter s k v = .error .typeMismatch ↔ v.isIntegerType = false) := by
  rw [setParameter_eq_of_writable s k v address info h1 h2 h3,
    checkValue_of_params s address info v h2]
  cases hv : v.isIntegerType
  · simp [h4, Except.map]
  · simp only [h4, hv, Bool.not_true, Bool.and_false, Bool.false_eq_true, if_false]
    rcases hr : info.value_range with _ | ⟨lo, hi⟩
    · simp [Except.map]
    · by_cases hcond : (v.toRat < lo ∨ hi < v.toRat)
      · simp [hcond, Except.map]
      · simp [hcond, Except.map]

/-- Claim C5 (witness): the amended theorem applied to the key-lock
parameter and the float one half. -/
theorem c5_amended_witness :
    setParameter demoState (.byParam .LOCK) (.pyFloat (1 / 2)) = .error .typeMismatch :=
  (c5_amended_type_check demoState (.byParam .LOCK) (.pyFloat (1 / 2)) 6
    ⟨true, true, "-", "Key lock", some (0, 1), true⟩ rfl rfl rfl rfl).mpr rfl

/-- Claim C6: for a writable parameter with populated range, given a value
that passes the type check, the range check of `set_parameter` fails with
the out-of-range error exactly when the value is strictly below the lower
bound or strictly above the upper bound (both endpoints are accepted), and
when the range is unset the range check also fails with the out-of-range
error, in its unset-range form. -/
theorem c6_range_check (s : DPSState) (k : RegKey) (v : PyVal) (address : ℕ)
    (info : ParamInfo) (h1 : checkName s k = .ok address)
    (h2 : s.params address = some info) (h3 : info.write = true)
    (h4 : info.integer = true → v.isIntegerType = true) :
    (∀ lo hi, info.value_range = some (lo, hi) →
      (setParameter s k v = .error (.outOfRange .valueOutside) ↔
        (v.toRat < lo ∨ hi < v.toRat))) ∧
    (info.value_range = none → setParameter s k v = .error (.outOfRange .unsetRange)) := by
  have hguard : (info.integer && !v.isIntegerType) = false := by
    cases hi : info.integer
    · rfl
    · rw [h4 hi]
      rfl
  constructor
  · intro lo hi hr
    rw [setParameter_eq_of_writable s k v address info h1 h2 h3,
      checkValue_of_params s address info v h2]
    simp only [hguard, Bool.false_eq_true, if_false, hr]
    by_cases hcond : (v.toRat < lo ∨ hi < v.toRat)
    · simp [hcond, Except.map]
    · simp [hcond, Except.map]
  · intro hr
    rw [setParameter_eq_of_writable s k v address info h1 h2 h3,
      checkValue_of_params s address info v h2]
    simp [hguard, hr, Except.map]

/-- Claim C6 (witness): writing the integer 2 to key-lock, whose range is
0 through 1, fails with the out-of-range error. -/
theorem c6_witness :
    setParameter demoState (.byParam .LOCK) (.pyInt 2) = .error (.outOfRange .valueOutside) :=
  ((c6_range_check demoState (.byParam .LOCK) (.pyInt 2) 6
      ⟨true, true, "-", "Key lock", some (0, 1), true⟩ rfl rfl rfl (fun _ => rfl)).1
    0 1 rfl).mpr (Or.inr (by norm_num [PyVal.toRat]))

/-- Claim C7: when discovery reads raw model number 5015 (model 50.15) and
raw input voltage 4800 (48 volts), the populated set-voltage range is
0 through 48 / 1.1, the set-current range is 0 through 15, and the
over-voltage-protect setting range is 0 through 50 * 1.02. -/
theorem c7_discovery_ranges :
    (pydpsSetup 5015 4800).1 0 =
      some ⟨true, true, "V", "Set voltage", some (0, 48 / 1.1), false⟩ ∧
    (pydpsSetup 5015 4800).1 1 =
      some ⟨true, true, "A", "Set current", some (0, 15), false⟩ ∧
    (pydpsSetup 5015 4800).2 2 =
      some ⟨true, true, "V", "Over-voltage protection value", some (0, 50 * 1.02), false⟩ := by
  refine ⟨?_, ?_, ?_⟩ <;>
    simp [pydpsSetup, pydpsParams, pydpsSettings, setTableRange, setInfoRange,
      initialParameterInfo, initialSettingInfo, maxVoltageOf, maxCurrentOf, ratedVoltageOf,
      ratedCurrentOf, parseModel] <;> norm_num

/-- Claim C8 (counterexample): when the model-number read fails in the
transport, construction aborts with the transport error itself, which is
not the device-initialization error the claim names. -/
theorem c8_counterexample :
    pydpsInitT failingTransport = .error (.transportError .timeout) ∧
    (InitError.transportError .timeout ≠ InitError.deviceInitializationError) :=
  ⟨rfl, by decide⟩

/-- Claim C8 (amended): a transport failure during either discovery read
(model number first, then input voltage) aborts construction with the
transport error propagated unchanged, and no metadata tables are
produced. -/
theorem c8_amended_propagation (tr : ℕ → Except TransportError ℕ) (e : TransportError) :
    (tr ParamName.MODEL.value = .error e → pydpsInitT tr = .error (.transportError e)) ∧
    (∀ m, tr ParamName.MODEL.value = .ok m → tr ParamName.V_IN.value = .error e →
      pydpsInitT tr = .error (.transportError e)) := by
  constructor
  · intro h
    simp [pydpsInitT, mapErr, h]
  · intro m h1 h2
    simp [pydpsInitT, mapErr, h1, h2]

/-- Claim C8 (witness): the amended theorem applied to a transport whose
model-number read fails with a CRC failure. -/
theorem c8_amended_witness :
    pydpsInitT (fun _ => .error .crcFailure) = .error (.transportError .crcFailure) :=
  (c8_amended_propagation (fun _ => .error .crcFailure) .crcFailure).1 rfl

/-- Claim C9: on a constructed client every writable entry of both
metadata tables has a populated value range, `set_parameter` never modifies
the tables (so the invariant is preserved by every operation), and the
unset-range failure of the range check is unreachable from `set_parameter`
on a constructed client. -/
theorem c9_ranges_populated (rm rv : ℕ) (regs : ℕ → ℕ) :
    (∀ a info, (mkState (pydpsSetup rm rv) regs).params a = some info → info.write = true →
      info.value_range.isSome = true) ∧
    (∀ a info, (mkState (pydpsSetup rm rv) regs).settings a = some info → info.write = true →
      info.value_range.isSome = true) ∧
    (∀ (s : DPSState) (k : RegKey) (v : PyVal) (s1 : DPSState), setParameter s k v = .ok s1 →
      s1.params = s.params ∧ s1.settings = s.settings) ∧
    (∀ (k : RegKey) (v : PyVal),
      setParameter (mkState (pydpsSetup rm rv) regs) k v ≠
        .error (.outOfRange .unsetRange)) := by
  refine ⟨?_, ?_, ?_, ?_⟩
  · exact fun a info h hw => pydpsParams_writable_range rm rv a info h hw
  · exact fun a info h hw => pydpsSettings_writable_range rm rv a info h hw
  · exact setParameter_preserves_tables
  · intro k v hcontra
    rcases hn : checkName (mkState (pydpsSetup rm rv) regs) k with e | address
    · have he : e = .unknownParameter := by
        unfold checkName at hn
        split at hn
        · cases hn
        · cases hn
          rfl
      subst he
      unfold setParameter at hcontra
      simp only [hn] at hcontra
      simp at hcontra
    · have hsome := checkName_ok_isSome _ k address hn
      obtain ⟨info, hinfo⟩ := Option.isSome_iff_exists.mp hsome
      cases hw : info.write
      · unfold setParameter checkWritable lookupInfo at hcontra
        simp only [hn, hinfo, hw] at hcontra
        simp at hcontra
      · have hrange := pydpsParams_writable_range rm rv address info hinfo hw
        obtain ⟨⟨lo, hi⟩, hr⟩ := Option.isSome_iff_exists.mp hrange
        rw [setParameter_eq_of_writable _ k v address info hn hinfo hw,
          checkValue_of_params _ address info v hinfo] at hcontra
        simp only [hr] at hcontra
        by_cases hguard2 : (info.integer && !v.isIntegerType) = true
        · simp [hguard2, Except.map] at hcontra
        · by_cases hcond : (v.toRat < lo ∨ hi < v.toRat)
          · simp [hguard2, hcond, Except.map] at hcontra
          · simp [hguard2, hcond, Except.map] at hcontra

/-- Claim C9 (witness): on the scenario client, writing the set-voltage
parameter can never fail with the unset-range error. -/
theorem c9_witness :
    setParameter demoState (.byParam .V_SET) (.pyFloat 7) ≠
      .error (.outOfRange .unsetRange) :=
  (c9_ranges_populated 5015 4800 demoRegs).2.2.2 (.byParam .V_SET) (.pyFloat 7)

/-- Claim C10: every `SettingName` member has a numerically equal
`ParamName` address, name resolution sends a setting enum to that
parameter address, writing through `SettingName.OVP` is validated against
the read-only output-voltage parameter and fails with the not-writable
error for every value, `get_parameter_info` on a setting enum returns the
parameter-table metadata, and every resolved address lies in the parameter
table, so the settings metadata table is never consulted. -/
theorem c10_setting_keys (rm rv : ℕ) (regs : ℕ → ℕ) :
    (∀ t : SettingName, ∃ p : ParamName, p.value = t.value) ∧
    (∀ t : SettingName,
      checkName (mkState (pydpsSetup rm rv) regs) (.bySetting t) = .ok t.value) ∧
    (∀ v : PyVal,
      setParameter (mkState (pydpsSetup rm rv) regs) (.bySetting .OVP) v =
        .error .notWritable) ∧
    (∀ t : SettingName, ∃ i : ParamInfo,
      getParameterInfo (mkState (pydpsSetup rm rv) regs) (.bySetting t) = .ok i ∧
      (mkState (pydpsSetup rm rv) regs).params t.value = some i) ∧
    (∀ (s : DPSState) (k : RegKey) (address : ℕ), checkName s k = .ok address →
      (s.params address).isSome = true) := by
  refine ⟨?_, ?_, ?_, ?_, ?_⟩
  · intro t
    cases t
    exacts [⟨.V_SET, rfl⟩, ⟨.I_SET, rfl⟩, ⟨.V_OUT, rfl⟩, ⟨.I_OUT, rfl⟩, ⟨.P_OUT, rfl⟩,
      ⟨.V_IN, rfl⟩, ⟨.LOCK, rfl⟩, ⟨.PROTECT, rfl⟩]
  · intro t
    cases t <;> rfl
  · intro v
    rfl
  · intro t
    cases t <;> exact ⟨_, rfl, rfl⟩
  · exact checkName_ok_isSome

/-- Claim C10 (witness): on the scenario client the address resolved from
`SettingName.OVP` is a key of the parameter table. -/
theorem c10_witness : (demoState.params 2).isSome = true :=
  (c10_setting_keys 5015 4800 demoRegs).2.2.2.2 demoState (.bySetting .OVP) 2 rfl
